import Mathlib

/-!
Shallow embedding of the core audio subsystem of the FlowStateApp repository:
the realtime output callback of `AudioEngine` (src/flow_state_main.py), the
`AudioEffect` base class and `GainEffect` (src/flow_state_audio_effects.py),
and the `HostAppInterface` facade (src/flow_state_launcher.py).

Audio sample values are modelled as exact rationals (ℚ); the decibel-to-linear
conversion of `GainEffect` is modelled over the reals. NumPy arrays are
modelled by their shape (a list of dimension sizes) together with their data
flattened in row-major (C) order, which is how NumPy stores them.
-/

namespace FlowState

/-- A NumPy ndarray of rational samples: `shape` is the list of dimension
sizes and `data` the row-major flattening of the elements. An audio block is
such an array of shape `[n]` (1-D mono, `n` frames) or `[n, c]`
(`n` frames, `c` channels). -/
structure NpArr where
  shape : List Nat
  data : List ℚ
deriving DecidableEq, Repr, Inhabited

/-- `a.ndim` of a NumPy array: the number of axes. -/
def NpArr.ndim (a : NpArr) : Nat := a.shape.length

/-- Well-formedness of the flat representation: the data length is the
product of the dimension sizes. -/
def NpArr.wf (a : NpArr) : Prop := a.data.length = a.shape.prod

instance (a : NpArr) : Decidable a.wf := by unfold NpArr.wf; infer_instance

/-- `np.zeros((n, c))`: the all-zero 2-D array, as written into the output
buffer by `outdata.fill(0)` (the buffer has shape `(frames, out_channels)`). -/
def zerosArr (n c : Nat) : NpArr :=
  { shape := [n, c], data := List.replicate (n * c) 0 }

/-- Elementwise multiplication of an array by a scalar (`block * effective_volume`). -/
def npScale (a : NpArr) (q : ℚ) : NpArr :=
  { shape := a.shape, data := a.data.map (fun x => x * q) }

/-- The effective output volume of `AudioEngine._sounddevice_callback`
(src/flow_state_main.py line 100): `self.volume if not self.is_muted else 0.0`. -/
def effectiveVolume (volume : ℚ) (isMuted : Bool) : ℚ :=
  if isMuted then 0 else volume

/-- One invocation of `AudioEngine._sounddevice_callback`
(src/flow_state_main.py lines 95-106), returning the contents written to
`outdata` (shape `(frames, outCh)`).
`popResult` is the outcome of `self.stream_output_queue.get(timeout=...)`:
`none` when the queue is empty at timeout (`queue.Empty` is raised and the
handler runs `outdata.fill(0)`), `some block` on success. On success the
code checks `block.shape[0] == frames and block.shape[1] == outdata.shape[1]`
and then assigns `outdata[:] = block * effective_volume`; in every other case
zeros are written: the explicit `else` branch runs `outdata.fill(0)`, a 1-D
block makes `block.shape[1]` raise `IndexError`, and a block of three or more
axes whose first two dimensions match makes the assignment into the 2-D
`outdata` raise a broadcast error — both exceptions are caught by the
`except Exception` handler which runs `outdata.fill(0)`. Hence the scaled
block is written exactly when the block's shape is `[frames, outCh]`, and
zeros are written in all remaining cases; no exception escapes the callback. -/
def sdCallback (popResult : Option NpArr) (frames outCh : Nat)
    (volume : ℚ) (isMuted : Bool) : NpArr :=
  match popResult with
  | none => zerosArr frames outCh
  | some block =>
      if block.shape = [frames, outCh] then
        npScale block (effectiveVolume volume isMuted)
      else
        zerosArr frames outCh

/-! Embedding of the `AudioEffect` base class (src/flow_state_audio_effects.py). -/

/-- The state of the `AudioEffect` base class that `process_block` and
`set_stream_properties` read: the `enabled` and `bypass` flags and the
configured stream properties `sample_rate` and `channels`
(src/flow_state_audio_effects.py lines 22-28). -/
structure EffectBase where
  enabled : Bool
  bypass : Bool
  sample_rate : Int
  channels : Nat
deriving DecidableEq, Repr

/-- The channel count `process_block` computes for its input block:
`audio_block.shape[1] if audio_block.ndim == 2 else 1`
(src/flow_state_audio_effects.py line 57). -/
def inputBlockChannels (a : NpArr) : Nat :=
  if a.ndim = 2 then (a.shape.get? 1).getD 0 else 1

/-- The mono-to-stereo upmix branch of `process_block`
(src/flow_state_audio_effects.py line 63):
`np.tile(audio_block[:, np.newaxis], (1, self.channels))` with
`self.channels = 2`. `audio_block[:, np.newaxis]` inserts an axis of size 1
at position 1, so a 1-D block of shape `[n]` becomes `[n, 1]` and a 2-D block
of shape `[n, c]` becomes `[n, 1, c]`. `np.tile` with `reps = (1, 2)` pads
`reps` with leading ones up to the array's ndim, so it repeats the array
twice along its last axis. This branch is reached only when the computed
input channel count is 1, i.e. for shapes `[n]` and `[n, 1]`; after the
inserted axis the last axis has size 1 in both cases (`[n, 1]` resp.
`[n, 1, 1]`), so repeating along it duplicates each element in place, giving
shapes `[n, 2]` resp. `[n, 1, 2]`. `.astype(audio_block.dtype)` keeps shape
and values. -/
def upmixMonoToStereo (a : NpArr) : NpArr :=
  let withAxis : List Nat := a.shape.take 1 ++ 1 :: a.shape.drop 1
  { shape := withAxis.dropLast ++ [2 * withAxis.getLastD 1],
    data := a.data.flatMap (fun x => [x, x]) }

/-- Per-frame averaging of consecutive channel pairs: the row-major data of
`np.mean(a, axis=1, keepdims=True)` for an array of shape `[n, 2]`. -/
def avgPairs : List ℚ → List ℚ
  | x :: y :: rest => (x + y) / 2 :: avgPairs rest
  | _ => []

/-- The stereo-to-mono downmix branch of `process_block`
(src/flow_state_audio_effects.py line 66):
`np.mean(audio_block, axis=1, keepdims=True)`. It is reached only when the
input has shape `[n, 2]`; the result has shape `[n, 1]` and each frame holds
the average of the frame's two channels. -/
def downmixStereoToMono (a : NpArr) : NpArr :=
  { shape := a.shape.take 1 ++ [1], data := avgPairs a.data }

/-- `AudioEffect.process_block` (src/flow_state_audio_effects.py lines 46-70):
returns the input unchanged when `self.bypass or not self.enabled`; otherwise
computes the input block's channel count and either passes the block through
(count equals `self.channels`), upmixes mono to stereo by `np.tile`, downmixes
stereo to mono by `np.mean`, or passes any other mismatch through unchanged. -/
def processBlock (e : EffectBase) (a : NpArr) : NpArr :=
  if e.bypass || !e.enabled then a
  else
    let c := inputBlockChannels a
    if c = e.channels then a
    else if c = 1 ∧ e.channels = 2 then upmixMonoToStereo a
    else if c = 2 ∧ e.channels = 1 then downmixStereoToMono a
    else a

/-- The outcome of `AudioEffect.set_stream_properties`
(src/flow_state_audio_effects.py lines 30-44): the updated effect state,
whether `self._on_parameter_change("_stream_props_changed", None)` was
invoked, and whether `self.reset()` was invoked (for the base class both are
state-preserving, so only the fact of the call is recorded). -/
structure SSPResult where
  state : EffectBase
  onParamChangeCalled : Bool
  resetCalled : Bool
deriving DecidableEq, Repr

/-- `AudioEffect.set_stream_properties(sample_rate, channels)`
(src/flow_state_audio_effects.py lines 30-44): assigns each stream property
that differs from the stored one and sets `needs_reinit`; when `needs_reinit`
holds it calls `self._on_parameter_change("_stream_props_changed", None)` and
then `self.reset()` before returning. -/
def setStreamProperties (e : EffectBase) (sr : Int) (ch : Nat) : SSPResult :=
  let p1 := if e.sample_rate ≠ sr
    then ({ e with sample_rate := sr }, true) else (e, false)
  let p2 := if p1.1.channels ≠ ch
    then ({ p1.1 with channels := ch }, true) else (p1.1, false)
  let needsReinit := p1.2 || p2.2
  { state := p2.1, onParamChangeCalled := needsReinit, resetCalled := needsReinit }

/-! Embedding of `GainEffect` (src/flow_state_audio_effects.py lines 104-122).
Its parameter mapping holds the single key `'gain_db'`; the derived state is
`self.gain_linear`. -/

/-- The decibel-to-linear conversion computed by
`GainEffect._on_parameter_change`: `10 ** (gain_val_db / 20.0)`
(src/flow_state_audio_effects.py line 119), idealised over the reals. -/
noncomputable def dbToLinear (db : ℚ) : ℝ :=
  (10 : ℝ) ^ ((db : ℝ) / 20)

/-- The mutable state of a `GainEffect`: `self.parameters['gain_db']` (its
only parameter) and the derived `self.gain_linear`. -/
structure GainEffect where
  gain_db : ℚ
  gain_linear : ℝ

/-- `GainEffect.__init__` (src/flow_state_audio_effects.py lines 105-109):
sets `parameters = {'gain_db': 0.0}`, `gain_linear = 1.0`, then calls
`_on_parameter_change('gain_db', 0.0)` which recomputes
`gain_linear = 10 ** (0.0 / 20.0)`. -/
noncomputable def GainEffect.init : GainEffect :=
  { gain_db := 0, gain_linear := dbToLinear 0 }

/-- `AudioEffect.set_parameter(name, value)` as executed by a `GainEffect`
(src/flow_state_audio_effects.py lines 76-82 and 115-119): when `name` is a
key of the parameter mapping (here only `'gain_db'`) and the stored value
differs, it stores the value and calls `_on_parameter_change`, which for
`'gain_db'` re-stores the value and recomputes `gain_linear`; when `name` is
unknown it only logs a warning and changes nothing; when the stored value
already equals `value` it does nothing. -/
noncomputable def GainEffect.setParameter (e : GainEffect) (name : String) (value : ℚ) :
    GainEffect :=
  if name = "gain_db" then
    if e.gain_db ≠ value then
      { gain_db := value, gain_linear := dbToLinear value }
    else e
  else e

/-- Consistency of a `GainEffect`'s derived state with its parameter:
`gain_linear` equals the conversion of the stored `gain_db`. It holds after
`__init__` and is maintained by `set_parameter`. -/
def GainEffect.consistent (e : GainEffect) : Prop :=
  e.gain_linear = dbToLinear e.gain_db

/-! Embedding of `Chorus` (src/flow_state_audio_effects.py lines 151-184),
the other effect whose `__init__`, `_on_parameter_change` and `reset` are
concrete in src (its `process_block` body is a pass-through placeholder).
`reset` draws from `np.random`; the random source is modelled as an explicit
stream `rng : ℕ → ℚ` of the successive values the source returns (the code
draws, per voice and in this order, `np.random.rand()`,
`np.random.uniform(-0.1, 0.1)` and `np.random.uniform(0, 0.002)`), together
with a counter `rngUsed` of the draws consumed so far. -/

/-- One entry of `Chorus.voices_data`
(src/flow_state_audio_effects.py lines 176-181): the per-voice delay buffer
`np.zeros((buffer_len_samples, channels))`, the `np.random.rand()` draw
behind `lfo_phase` (the stored phase is this draw times `2 * np.pi`; keeping
the draw keeps the state decidable), the derived
`lfo_rate_hz = parameters.get('rate_hz', 0.2) * (1.0 + uniform(-0.1, 0.1))`,
and `base_delay_s = 0.005 + uniform(0, 0.002) * i`. -/
structure ChorusVoice where
  buffer : NpArr
  lfo_phase_unit : ℚ
  lfo_rate_hz : ℚ
  base_delay_s : ℚ
deriving DecidableEq, Repr, Inhabited

/-- The parameter mapping of `Chorus`
(src/flow_state_audio_effects.py line 159); its key set
\x7brate_hz, depth_s, mix, num_voices, stereo_spread\x7d is fixed at
`__init__` and never changes. -/
structure ChorusParams where
  rate_hz : ℚ
  depth_s : ℚ
  mix : ℚ
  num_voices : ℚ
  stereo_spread : ℚ
deriving DecidableEq, Repr

/-- The keys of the `Chorus` parameter mapping, in source order. -/
def chorusParamKeys : List String :=
  ["rate_hz", "depth_s", "mix", "num_voices", "stereo_spread"]

/-- Dictionary lookup `parameters[name]` on a `Chorus` parameter mapping.
The default 0 is never reached: every caller first checks
`name ∈ chorusParamKeys`. -/
def ChorusParams.get (p : ChorusParams) (name : String) : ℚ :=
  if name = "rate_hz" then p.rate_hz
  else if name = "depth_s" then p.depth_s
  else if name = "mix" then p.mix
  else if name = "num_voices" then p.num_voices
  else if name = "stereo_spread" then p.stereo_spread
  else 0

/-- Dictionary update `parameters[name] = value` on a `Chorus` parameter
mapping (a no-op on an unknown key, which no caller reaches). -/
def ChorusParams.set (p : ChorusParams) (name : String) (value : ℚ) :
    ChorusParams :=
  if name = "rate_hz" then { p with rate_hz := value }
  else if name = "depth_s" then { p with depth_s := value }
  else if name = "mix" then { p with mix := value }
  else if name = "num_voices" then { p with num_voices := value }
  else if name = "stereo_spread" then { p with stereo_spread := value }
  else p

/-- The state of a `Chorus` effect: the inherited base flags and stream
properties, the parameter mapping, `voices_data`, `write_idx`, and the
number of random draws consumed so far (`max_voice_delay_s` is the constant
0.025 and is kept as a literal in `chorusReset`). -/
structure ChorusState where
  enabled : Bool
  bypass : Bool
  sample_rate : Int
  channels : Nat
  params : ChorusParams
  voices_data : List ChorusVoice
  write_idx : Nat
  rngUsed : Nat
deriving DecidableEq, Repr

/-- The voice appended at loop index `i` of `Chorus.reset`
(src/flow_state_audio_effects.py lines 176-181), with `start` the number of
random draws consumed before the loop: the three draws of voice `i` are
`rng (start + 3*i)` (phase), `rng (start + 3*i + 1)` (rate jitter) and
`rng (start + 3*i + 2)` (base-delay jitter). -/
def chorusVoiceAt (rng : ℕ → ℚ) (rateHz : ℚ) (bufferLen channels : Nat)
    (start i : Nat) : ChorusVoice :=
  { buffer := zerosArr bufferLen channels
    lfo_phase_unit := rng (start + 3 * i)
    lfo_rate_hz := rateHz * (1 + rng (start + 3 * i + 1))
    base_delay_s := 5 / 1000 + rng (start + 3 * i + 2) * i }

/-- `Chorus.reset` (src/flow_state_audio_effects.py lines 167-184):
reads `num_v = parameters.get('num_voices', 3)` (an integer count in the
source; modelled as the floor of the stored rational), empties
`voices_data`, returns early when the sample rate or channel count is not
positive or when `buffer_len_samples = int(0.025 * sample_rate)` is not
positive (leaving `write_idx` and the random source untouched), and
otherwise rebuilds `voices_data` with `num_v` freshly drawn voices and sets
`write_idx = 0`. -/
def chorusReset (rng : ℕ → ℚ) (s : ChorusState) : ChorusState :=
  let numV : Nat := ⌊s.params.num_voices⌋.toNat
  if s.sample_rate ≤ 0 ∨ s.channels = 0 then { s with voices_data := [] }
  else
    let bufferLen : Nat := ⌊(25 / 1000 : ℚ) * (s.sample_rate : ℚ)⌋.toNat
    if bufferLen = 0 then { s with voices_data := [] }
    else
      { s with
        voices_data :=
          (List.range numV).map
            (chorusVoiceAt rng s.params.rate_hz bufferLen s.channels s.rngUsed)
        write_idx := 0
        rngUsed := s.rngUsed + 3 * numV }

/-- `Chorus.__init__` (src/flow_state_audio_effects.py lines 156-163):
`super().__init__("Chorus")` leaves `enabled = True`, `bypass = False`,
`sample_rate = 44100`, `channels = 2`; the parameter defaults are
`{'rate_hz': 0.2, 'depth_s': 0.003, 'mix': 0.5, 'num_voices': 3,
'stereo_spread': 0.7}`; `voices_data = []`, `write_idx = 0`; then
`self.reset()` builds the initial voices. -/
def chorusInit (rng : ℕ → ℚ) : ChorusState :=
  chorusReset rng
    { enabled := true
      bypass := false
      sample_rate := 44100
      channels := 2
      params :=
        { rate_hz := 2 / 10, depth_s := 3 / 1000, mix := 5 / 10,
          num_voices := 3, stereo_spread := 7 / 10 }
      voices_data := []
      write_idx := 0
      rngUsed := 0 }

/-- `Chorus._on_parameter_change` (src/flow_state_audio_effects.py
lines 165-166): calls `self.reset()` exactly when the name is `num_voices`
or `_stream_props_changed`; every other parameter change leaves the derived
voice state untouched. -/
def chorusOnParameterChange (rng : ℕ → ℚ) (name : String) (s : ChorusState) :
    ChorusState :=
  if name = "num_voices" ∨ name = "_stream_props_changed" then chorusReset rng s
  else s

/-- `AudioEffect.set_parameter(name, value)` as executed by a `Chorus`
(src/flow_state_audio_effects.py lines 76-82 with the override at
lines 165-166): when `name` is a key of the mapping and the stored value
differs, it stores the value and calls `_on_parameter_change(name, value)`;
an unknown name only logs; an unchanged value does nothing. -/
def chorusSetParameter (rng : ℕ → ℚ) (s : ChorusState) (name : String)
    (value : ℚ) : ChorusState :=
  if name ∈ chorusParamKeys then
    if s.params.get name ≠ value then
      chorusOnParameterChange rng name { s with params := s.params.set name value }
    else s
  else s

/-- A concrete random stream for counterexamples: the n-th draw of the
random source is `1 / (1000 * (n + 1))` (pairwise distinct, and inside the
ranges the code draws from). -/
def sampleRng (n : ℕ) : ℚ := 1 / (1000 * (n + 1))

/-! Embedding of the `AudioEngine` volume and mute state
(src/flow_state_main.py). `__init__` (lines 66-68) sets `self.volume = 0.7`,
`self.is_muted = False`,
`self.previous_volume_before_mute = self.volume`. -/

/-- The volume-related state of `AudioEngine`: `self.volume`,
`self.is_muted` and `self.previous_volume_before_mute`
(src/flow_state_main.py lines 66-68). -/
structure EngineVolumeState where
  volume : ℚ
  is_muted : Bool
  previous_volume_before_mute : ℚ
deriving DecidableEq, Repr

/-- Modelled from the spec: the body of `AudioEngine.set_volume` is absent
from src/flow_state_main.py (line 170 declares it with a stubbed body,
`pass # As before`). Per the spec, `set_volume` stores the requested level as
the engine volume, which the realtime callback then reads ("the realtime
callback treats its effective volume/mute inputs as plain atomic reads"). -/
def setVolume (e : EngineVolumeState) (level : ℚ) : EngineVolumeState :=
  { e with volume := level }

/-- Modelled from the spec: the body of `AudioEngine.toggle_mute` is absent
from src/flow_state_main.py (line 172 declares it with a stubbed body,
`pass # As before`). Per the spec's mute/volume scenario and the engine field
`previous_volume_before_mute` initialised in `__init__`, muting records the
current volume in `previous_volume_before_mute` and sets `is_muted`;
unmuting clears `is_muted` and restores the recorded volume. -/
def toggleMute (e : EngineVolumeState) : EngineVolumeState :=
  if e.is_muted then
    { e with is_muted := false, volume := e.previous_volume_before_mute }
  else
    { e with is_muted := true, previous_volume_before_mute := e.volume }

/-! Embedding of the `HostAppInterface` facade (src/flow_state_launcher.py). -/

/-- The attributes of a registered audio engine that
`HostAppInterface.get_audio_properties` probes with `hasattr`: `none` models
a missing attribute. In `AudioEngine` both attributes are integers
(`__init__` sets `self.sample_rate = 44100`, `self.channels = 2`), so the
`int(...)` coercions in the facade are the identity. -/
structure EngineAttrs where
  sample_rate : Option Int
  channels : Option Int
deriving DecidableEq, Repr

/-- `HostAppInterface.get_audio_properties` (src/flow_state_launcher.py
lines 77-81): when `self.audio_engine_ref` is set and has both a
`sample_rate` and a `channels` attribute, returns
`(int(engine.sample_rate), int(engine.channels))`; otherwise logs a warning
and returns the default `(44100, 2)`. The argument is `none` when no engine
is registered. -/
def getAudioProperties (engine : Option EngineAttrs) : Int × Int :=
  match engine with
  | some e =>
      match e.sample_rate, e.channels with
      | some sr, some ch => (sr, ch)
      | _, _ => (44100, 2)
  | none => (44100, 2)

/-- The availability flags `HostAppInterface.request_playback_action` probes
before dispatching (src/flow_state_launcher.py lines 104-192):
`audio_engine_ref` and `main_player_ui_ref` being set, and the `hasattr`
checks on the engine and player-UI methods. `engineAvailable = false` models
`self.audio_engine_ref` unset. -/
structure HostDispatchState where
  engineAvailable : Bool
  playerUiLoadTrack : Bool
  playerUiLoadTrackAndPlay : Bool
  playerUiPlayTrackById : Bool
  playerUiAddToQueue : Bool
  playerUiForceSync : Bool
  engineHasPlayTrackAtIndex : Bool
  engineHasResume : Bool
  engineHasToggleMute : Bool
  engineHasLoadPlaylist : Bool
  engineHasSetShuffleMode : Bool
  engineHasSetRepeatMode : Bool
deriving DecidableEq, Repr

/-- The host state in which every component and optional method that
`request_playback_action` may dispatch to is available. -/
def fullHostState : HostDispatchState :=
  { engineAvailable := true
    playerUiLoadTrack := true
    playerUiLoadTrackAndPlay := true
    playerUiPlayTrackById := true
    playerUiAddToQueue := true
    playerUiForceSync := true
    engineHasPlayTrackAtIndex := true
    engineHasResume := true
    engineHasToggleMute := true
    engineHasLoadPlaylist := true
    engineHasSetShuffleMode := true
    engineHasSetRepeatMode := true }

/-- `HostAppInterface.request_playback_action(action, params, callback)`
(src/flow_state_launcher.py lines 104-192), modelled as the
`(success, err_msg)` pair the method reports to the caller's callback via
`self.root.after(0, callback, success, err_msg)`. When the engine is absent
it reports `(False, "Playback action requested, but audio engine not
available.")`. Otherwise `success` starts `False` and `err_msg` `None`; each
recognised action string dispatches to its component (guarded by the
availability flags; `params` is modelled as holding the keys the action
reads, so no `KeyError` path is taken), setting `success = True` on
dispatch; `"resume"` falls back to `engine.play()` when the engine lacks
`resume`, so it always succeeds; an unrecognised action sets
`err_msg = f"Unknown playback action: \x7baction\x7d"` and leaves `success`
as `False`. -/
def requestPlaybackAction (st : HostDispatchState) (action : String) :
    Bool × Option String :=
  if !st.engineAvailable then
    (false, some "Playback action requested, but audio engine not available.")
  else if action = "load_track_from_path" then (st.playerUiLoadTrack, none)
  else if action = "load_and_play_path" then (st.playerUiLoadTrackAndPlay, none)
  else if action = "play_track_by_id" then (st.playerUiPlayTrackById, none)
  else if action = "play_track_at_playlist_index" then
    (st.engineHasPlayTrackAtIndex, none)
  else if action = "play" then (true, none)
  else if action = "pause" then (true, none)
  else if action = "resume" then (true, none)
  else if action = "stop" then (true, none)
  else if action = "next" then (true, none)
  else if action = "previous" then (true, none)
  else if action = "set_volume" then (true, none)
  else if action = "seek" then (true, none)
  else if action = "toggle_mute" then (st.engineHasToggleMute, none)
  else if action = "add_to_queue_path" then (st.playerUiAddToQueue, none)
  else if action = "load_playlist_paths" then (st.engineHasLoadPlaylist, none)
  else if action = "set_shuffle_mode" then (st.engineHasSetShuffleMode, none)
  else if action = "set_repeat_mode" then (st.engineHasSetRepeatMode, none)
  else if action = "force_sync_playback" then (st.playerUiForceSync, none)
  else (false, some ("Unknown playback action: " ++ action))

/-- The action strings `request_playback_action` recognises, in source
order (src/flow_state_launcher.py lines 121-180). -/
def recognisedPlaybackActions : List String :=
  ["load_track_from_path", "load_and_play_path", "play_track_by_id",
   "play_track_at_playlist_index", "play", "pause", "resume", "stop",
   "next", "previous", "set_volume", "seek", "toggle_mute",
   "add_to_queue_path", "load_playlist_paths", "set_shuffle_mode",
   "set_repeat_mode", "force_sync_playback"]

/-- The action set the spec's host-facade sentence names. -/
def specClaimedPlaybackActions : List String :=
  ["load", "load_and_play", "play", "pause", "resume", "stop", "next",
   "previous", "seek", "set_volume", "toggle_mute", "set_shuffle_mode",
   "set_repeat_mode", "force_sync_playback"]

/-! Theorems. -/

/-- C1: the realtime output callback never lets an exception escape and never
writes stale data: whenever the queue pop does not yield a block of shape
`[frames, outCh]` — a pop timeout (`popResult = none`), a frame-count or
channel-count mismatch, or a shape that makes the callback body raise (the
exception is caught inside the callback) — the entire output buffer is
written as silence. -/
theorem sdCallback_silence_on_failure (popResult : Option NpArr)
    (frames outCh : Nat) (volume : ℚ) (isMuted : Bool)
    (h : ∀ b : NpArr, popResult = some b → b.shape ≠ [frames, outCh]) :
    sdCallback popResult frames outCh volume isMuted = zerosArr frames outCh := by
  cases popResult with
  | none => rfl
  | some b =>
      simp only [sdCallback]
      rw [if_neg (h b rfl)]

/-- Witness for C1: a popped 1-D block of three samples against a stereo
two-frame output buffer is replaced by silence. -/
theorem sdCallback_silence_on_failure_witness :
    (∀ b : NpArr, (some { shape := [3], data := [1, 2, 3] } : Option NpArr) = some b →
        b.shape ≠ [2, 2]) ∧
    sdCallback (some { shape := [3], data := [1, 2, 3] }) 2 2 (7/10) false
      = zerosArr 2 2 := by
  refine ⟨?_, sdCallback_silence_on_failure _ 2 2 (7/10) false ?_⟩ <;>
    · intro b hb
      cases hb
      decide

/-- C2: when the realtime output callback pops a block of the expected shape,
the output buffer equals the block multiplied elementwise by the effective
volume, which is the engine's volume when not muted and 0 when muted. -/
theorem sdCallback_applies_effective_volume (b : NpArr) (frames outCh : Nat)
    (volume : ℚ) (isMuted : Bool) (h : b.shape = [frames, outCh]) :
    sdCallback (some b) frames outCh volume isMuted
        = npScale b (effectiveVolume volume isMuted) ∧
    effectiveVolume volume isMuted = (if isMuted then 0 else volume) := by
  constructor
  · simp only [sdCallback]
    rw [if_pos h]
  · rfl

/-- Witness for C2: a matching 2-frame stereo block is scaled by the unmuted
volume 1/2. -/
theorem sdCallback_applies_effective_volume_witness :
    sdCallback (some { shape := [2, 2], data := [1, 2, 3, 4] }) 2 2 (1/2) false
        = npScale { shape := [2, 2], data := [1, 2, 3, 4] }
            (effectiveVolume (1/2) false) ∧
    effectiveVolume (1/2) false = (if false then 0 else (1/2 : ℚ)) :=
  sdCallback_applies_effective_volume { shape := [2, 2], data := [1, 2, 3, 4] }
    2 2 (1/2) false (by decide)

/-- C3: evaluation of `AudioEffect.process_block` at the failing input. A
single-frame mono block of 2-D shape `[1, 1]` (the shape the code's own
stereo-to-mono downmix produces, via `keepdims=True`) fed to an active effect
configured for 2 channels is upmixed by
`np.tile(audio_block[:, np.newaxis], (1, 2))`, which yields a 3-D array of
shape `[1, 1, 2]` — not a stereo block of shape `[1, 2]` with the mono input
duplicated into both channels, contradicting the docstring
"Output should match self.channels". -/
theorem processBlock_monocolumn_upmix_shape_bug :
    processBlock { enabled := true, bypass := false, sample_rate := 44100, channels := 2 }
        { shape := [1, 1], data := [1] }
      = { shape := [1, 1, 2], data := [1, 1] } ∧
    (processBlock { enabled := true, bypass := false, sample_rate := 44100, channels := 2 }
        { shape := [1, 1], data := [1] }).ndim = 3 ∧
    (∀ n : Nat, ({ shape := [1, 1, 2], data := [1, 1] } : NpArr).shape ≠ [n, 2]) := by
  refine ⟨by decide, by decide, ?_⟩
  intro n
  simp

/-- Counterexample for C4: a bypassed effect configured for 2 channels
returns a 1-D mono block unchanged, so the returned block has channel
count 1, not the effect's configured channel count 2 — no channel adaptation
is performed on bypass. -/
theorem processBlock_bypass_no_channel_adaptation :
    processBlock { enabled := true, bypass := true, sample_rate := 44100, channels := 2 }
        { shape := [2], data := [1, 2] }
      = { shape := [2], data := [1, 2] } ∧
    inputBlockChannels
        (processBlock { enabled := true, bypass := true, sample_rate := 44100, channels := 2 }
          { shape := [2], data := [1, 2] }) = 1 := by
  constructor <;> decide

/-- C4 (amended): whenever an effect's bypass flag is set or its enabled flag
is cleared, `process_block` returns the input block unchanged — it is the
identity on the block and performs no channel adaptation at all. -/
theorem processBlock_bypass_identity (e : EffectBase) (a : NpArr)
    (h : e.bypass = true ∨ e.enabled = false) :
    processBlock e a = a := by
  rcases h with h | h <;> simp [processBlock, h]

/-- Witness for C4 (amended): a disabled stereo effect passes a mono block
through unchanged. -/
theorem processBlock_bypass_identity_witness :
    processBlock { enabled := false, bypass := false, sample_rate := 44100, channels := 2 }
        { shape := [2], data := [5, 6] }
      = { shape := [2], data := [5, 6] } :=
  processBlock_bypass_identity _ _ (Or.inr rfl)

/-- Setting the `gain_db` parameter always leaves the parameter mapping with
`gain_db ↦ value`, whether or not the stored value changed. -/
lemma GainEffect.setParameter_gain_db (e : GainEffect) (value : ℚ) :
    (e.setParameter "gain_db" value).gain_db = value := by
  by_cases h : e.gain_db = value <;>
    simp [GainEffect.setParameter, h]

/-- `set_parameter` keeps the derived `gain_linear` consistent with the
stored `gain_db`, for every parameter name. -/
lemma GainEffect.setParameter_consistent (e : GainEffect) (name : String)
    (value : ℚ) (hc : e.consistent) : (e.setParameter name value).consistent := by
  by_cases hn : name = "gain_db"
  · by_cases h : e.gain_db = value
    · have heq : e.setParameter name value = e := by
        simp [GainEffect.setParameter, hn, h]
      rw [heq]
      exact hc
    · simp [GainEffect.setParameter, GainEffect.consistent, hn, h]
  · simpa [GainEffect.setParameter, hn] using hc

/-- Reset never touches the parameter mapping: `Chorus.reset` rebuilds only
`voices_data` and `write_idx`. -/
lemma chorusReset_params (rng : ℕ → ℚ) (s : ChorusState) :
    (chorusReset rng s).params = s.params := by
  unfold chorusReset
  dsimp only
  split
  · rfl
  · split <;> rfl

/-- Evaluation rule for `Chorus.reset` when both guards pass: the voices are
rebuilt from `numV` triples of fresh draws and `write_idx` returns to 0. -/
lemma chorusReset_eq_of (rng : ℕ → ℚ) (s : ChorusState) (numV bufferLen : Nat)
    (hnum : ⌊s.params.num_voices⌋.toNat = numV)
    (hbuf : ⌊(25 / 1000 : ℚ) * (s.sample_rate : ℚ)⌋.toNat = bufferLen)
    (h1 : ¬(s.sample_rate ≤ 0 ∨ s.channels = 0)) (h2 : bufferLen ≠ 0) :
    chorusReset rng s =
      { s with
        voices_data := (List.range numV).map
          (chorusVoiceAt rng s.params.rate_hz bufferLen s.channels s.rngUsed)
        write_idx := 0
        rngUsed := s.rngUsed + 3 * numV } := by
  unfold chorusReset
  dsimp only
  rw [hnum, hbuf, if_neg h1, if_neg h2]

/-- At the default sample rate 44100, `int(0.025 * sample_rate)` is 1102. -/
lemma bufferLen_44100 : ⌊(25 / 1000 : ℚ) * ((44100 : Int) : ℚ)⌋.toNat = 1102 := by
  have h : ⌊(25 / 1000 : ℚ) * ((44100 : Int) : ℚ)⌋ = 1102 := by norm_num
  rw [h]
  rfl

/-- Floor of the integral voice count 3. -/
lemma floorToNat_three : ⌊(3 : ℚ)⌋.toNat = 3 := by
  have h : ⌊(3 : ℚ)⌋ = 3 := by norm_num
  rw [h]
  rfl

/-- Floor of the integral voice count 5. -/
lemma floorToNat_five : ⌊(5 : ℚ)⌋.toNat = 5 := by
  have h : ⌊(5 : ℚ)⌋ = 5 := by norm_num
  rw [h]
  rfl

/-- Explicit value of a freshly constructed `Chorus`: three voices drawn
from the first nine values of the random source. -/
lemma chorusInit_eval (rng : ℕ → ℚ) :
    chorusInit rng =
      { enabled := true
        bypass := false
        sample_rate := 44100
        channels := 2
        params :=
          { rate_hz := 2 / 10, depth_s := 3 / 1000, mix := 5 / 10,
            num_voices := 3, stereo_spread := 7 / 10 }
        voices_data := [chorusVoiceAt rng (2 / 10) 1102 2 0 0,
          chorusVoiceAt rng (2 / 10) 1102 2 0 1, chorusVoiceAt rng (2 / 10) 1102 2 0 2]
        write_idx := 0
        rngUsed := 9 } := by
  unfold chorusInit
  rw [chorusReset_eq_of rng _ 3 1102 floorToNat_three bufferLen_44100 (by decide) (by decide)]
  rfl

/-- Setting a known `Chorus` parameter to its current value is a no-op. -/
lemma chorusSetParameter_unchangedValue (rng : ℕ → ℚ) (s : ChorusState)
    (name : String) (value : ℚ) (hmem : name ∈ chorusParamKeys)
    (h : s.params.get name = value) : chorusSetParameter rng s name value = s := by
  unfold chorusSetParameter
  rw [if_pos hmem, if_neg (fun hne => hne h)]

/-- Setting a known `Chorus` parameter to a different value stores it and
hands the updated state to `_on_parameter_change`. -/
lemma chorusSetParameter_changedValue (rng : ℕ → ℚ) (s : ChorusState)
    (name : String) (value : ℚ) (hmem : name ∈ chorusParamKeys)
    (h : s.params.get name ≠ value) :
    chorusSetParameter rng s name value
      = chorusOnParameterChange rng name { s with params := s.params.set name value } := by
  unfold chorusSetParameter
  rw [if_pos hmem, if_pos h]

/-- For any name other than `num_voices` and `_stream_props_changed`,
`Chorus._on_parameter_change` does nothing. -/
lemma chorusOnParameterChange_other (rng : ℕ → ℚ) (name : String) (s : ChorusState)
    (h1 : name ≠ "num_voices") (h2 : name ≠ "_stream_props_changed") :
    chorusOnParameterChange rng name s = s := by
  unfold chorusOnParameterChange
  rw [if_neg]
  rintro (h | h) <;> [exact h1 h; exact h2 h]

/-- For `num_voices`, `Chorus._on_parameter_change` calls `reset`. -/
lemma chorusOnParameterChange_numVoices (rng : ℕ → ℚ) (s : ChorusState) :
    chorusOnParameterChange rng "num_voices" s = chorusReset rng s := by
  unfold chorusOnParameterChange
  rw [if_pos (Or.inl rfl)]

/-- Counterexample for C5: on a freshly constructed `Chorus`,
`set_parameter('rate_hz', 0.5)` updates the parameter mapping but leaves
`voices_data` — the derived state whose per-voice `lfo_rate_hz` was computed
from the old `rate_hz` of 0.2 at `reset` time — completely unchanged
(`_on_parameter_change` resets only for `num_voices` and
`_stream_props_changed`), so the head voice's derived rate still derives
from 0.2, not from the freshly written 0.5: the dependent derived state is
not recomputed synchronously, and the torn state is observable upon
return. -/
theorem chorusSetParameter_rate_hz_leaves_voices_stale :
    (chorusSetParameter sampleRng (chorusInit sampleRng) "rate_hz" (1/2)).params.rate_hz
        = 1/2 ∧
    (chorusSetParameter sampleRng (chorusInit sampleRng) "rate_hz" (1/2)).voices_data
        = (chorusInit sampleRng).voices_data ∧
    (chorusInit sampleRng).voices_data.headI.lfo_rate_hz = 2/10 * (1 + sampleRng 1) ∧
    (2/10 : ℚ) * (1 + sampleRng 1) ≠ (1/2) * (1 + sampleRng 1) := by
  have hget : (chorusInit sampleRng).params.get "rate_hz" ≠ 1/2 := by
    rw [chorusInit_eval]
    simp only [ChorusParams.get, if_pos rfl]
    norm_num
  have hset : chorusSetParameter sampleRng (chorusInit sampleRng) "rate_hz" (1/2)
      = { chorusInit sampleRng with
          params := (chorusInit sampleRng).params.set "rate_hz" (1/2) } := by
    rw [chorusSetParameter_changedValue _ _ _ _ (by decide) hget,
      chorusOnParameterChange_other _ _ _ (by decide) (by decide)]
  refine ⟨?_, ?_, ?_, ?_⟩
  · rw [hset]
    simp [ChorusParams.set]
  · rw [hset]
  · rw [chorusInit_eval]
    show (chorusVoiceAt sampleRng (2/10) 1102 2 0 0).lfo_rate_hz = 2/10 * (1 + sampleRng 1)
    unfold chorusVoiceAt
    norm_num
  · unfold sampleRng
    norm_num

/-- C5 (amended): `set_parameter(name, value)` with an unknown name leaves
the parameter mapping and all derived state unchanged and raises nothing
(shown for both concrete effects, `GainEffect` and `Chorus`; the embeddings
are total functions); with a known name the parameter mapping maps the name
to the value upon return. The synchronous derived-state recompute holds for
`GainEffect` — its `gain_linear` equals the conversion of the new value upon
return — but for `Chorus` the derived voice state is rebuilt only when the
written name is `num_voices`: a write to any of its other parameters leaves
`voices_data` unchanged, i.e. stale with respect to the new parameter
value. -/
theorem setParameter_mapping_and_derived_state (g : GainEffect) (name : String)
    (value : ℚ) (hc : g.consistent) (rng : ℕ → ℚ) (c : ChorusState) :
    (name ≠ "gain_db" → g.setParameter name value = g) ∧
    (name = "gain_db" →
      (g.setParameter name value).gain_db = value ∧
      (g.setParameter name value).gain_linear = dbToLinear value) ∧
    (name ∉ chorusParamKeys → chorusSetParameter rng c name value = c) ∧
    (name ∈ chorusParamKeys →
      (chorusSetParameter rng c name value).params.get name = value) ∧
    (name ∈ chorusParamKeys → name ≠ "num_voices" →
      (chorusSetParameter rng c name value).voices_data = c.voices_data) := by
  have hsp : name ∈ chorusParamKeys → name ≠ "_stream_props_changed" := by
    intro hmem h
    subst h
    simp [chorusParamKeys] at hmem
  refine ⟨?_, ?_, ?_, ?_, ?_⟩
  · intro hn
    simp [GainEffect.setParameter, hn]
  · intro hn
    subst hn
    refine ⟨g.setParameter_gain_db value, ?_⟩
    have h := g.setParameter_consistent "gain_db" value hc
    rw [GainEffect.consistent, g.setParameter_gain_db value] at h
    exact h
  · intro hn
    unfold chorusSetParameter
    rw [if_neg hn]
  · intro hmem
    by_cases hv : c.params.get name = value
    · rw [chorusSetParameter_unchangedValue rng c name value hmem hv]
      exact hv
    · rw [chorusSetParameter_changedValue rng c name value hmem hv]
      by_cases hnv : name = "num_voices"
      · subst hnv
        rw [chorusOnParameterChange_numVoices, chorusReset_params]
        simp [ChorusParams.get, ChorusParams.set]
      · rw [chorusOnParameterChange_other rng name _ hnv (hsp hmem)]
        simp only [chorusParamKeys, List.mem_cons, List.not_mem_nil, or_false] at hmem
        rcases hmem with h | h | h | h | h <;> subst h <;>
          simp [ChorusParams.get, ChorusParams.set]
  · intro hmem hnv
    by_cases hv : c.params.get name = value
    · rw [chorusSetParameter_unchangedValue rng c name value hmem hv]
    · rw [chorusSetParameter_changedValue rng c name value hmem hv,
        chorusOnParameterChange_other rng name _ hnv (hsp hmem)]

/-- Witness for C5 (amended): on a fresh `GainEffect`, the unknown name
`rate_hz` is a no-op and `gain_db := 3` updates parameter and derived gain;
on a fresh `Chorus`, `mix := 0.9` lands in the mapping while the voice state
stays untouched. -/
theorem setParameter_mapping_and_derived_state_witness :
    GainEffect.consistent GainEffect.init ∧
    GainEffect.init.setParameter "rate_hz" 3 = GainEffect.init ∧
    (GainEffect.init.setParameter "gain_db" 3).gain_db = 3 ∧
    (GainEffect.init.setParameter "gain_db" 3).gain_linear = dbToLinear 3 ∧
    (chorusSetParameter sampleRng (chorusInit sampleRng) "mix" (9/10)).params.get "mix"
        = 9/10 ∧
    (chorusSetParameter sampleRng (chorusInit sampleRng) "mix" (9/10)).voices_data
        = (chorusInit sampleRng).voices_data := by
  refine ⟨rfl, ?_, ?_, ?_, ?_, ?_⟩
  · exact (setParameter_mapping_and_derived_state GainEffect.init "rate_hz" 3 rfl
      sampleRng (chorusInit sampleRng)).1 (by decide)
  · exact ((setParameter_mapping_and_derived_state GainEffect.init "gain_db" 3 rfl
      sampleRng (chorusInit sampleRng)).2.1 rfl).1
  · exact ((setParameter_mapping_and_derived_state GainEffect.init "gain_db" 3 rfl
      sampleRng (chorusInit sampleRng)).2.1 rfl).2
  · exact (setParameter_mapping_and_derived_state GainEffect.init "mix" (9/10) rfl
      sampleRng (chorusInit sampleRng)).2.2.2.1 (by decide)
  · exact (setParameter_mapping_and_derived_state GainEffect.init "mix" (9/10) rfl
      sampleRng (chorusInit sampleRng)).2.2.2.2 (by decide) (by decide)

/-- Folding a sequence of `set_parameter("gain_db", ·)` calls leaves the
stored `gain_db` equal to the last value of the sequence. -/
lemma GainEffect.foldl_setParameter_gain_db :
    ∀ (vs : List ℚ) (e : GainEffect) (X : ℚ), vs.getLast? = some X →
      (vs.foldl (fun s v => s.setParameter "gain_db" v) e).gain_db = X
  | [], _, _, h => by simp at h
  | [v], e, X, h => by
      simp only [List.getLast?_singleton, Option.some.injEq] at h
      subst h
      simpa using e.setParameter_gain_db v
  | v :: w :: rest, e, X, h => by
      rw [List.getLast?_cons_cons] at h
      simpa using
        GainEffect.foldl_setParameter_gain_db (w :: rest) (e.setParameter "gain_db" v) X h

/-- Folding a sequence of `set_parameter` calls preserves consistency of the
derived state. -/
lemma GainEffect.foldl_setParameter_consistent :
    ∀ (vs : List ℚ) (e : GainEffect), e.consistent →
      (vs.foldl (fun s v => s.setParameter "gain_db" v) e).consistent
  | [], _, hc => hc
  | v :: rest, e, hc => by
      simpa using
        GainEffect.foldl_setParameter_consistent rest (e.setParameter "gain_db" v)
          (e.setParameter_consistent "gain_db" v hc)

/-- Counterexample for C6: parameter setting on a `Chorus` is not
history-independent. With the explicit random stream `sampleRng`, a single
`set_parameter('num_voices', 3)` on a fresh `Chorus` is a complete no-op
(3 is already the stored value, so no recompute happens and the voices keep
the draws 0-8 consumed at `__init__`), while the sequence
`set_parameter('num_voices', 5)` then `set_parameter('num_voices', 3)` —
which also ends with 3 — resets twice and rebuilds the final three voices
from draws 24-32 of the stream: the final internal coefficients (here the
head voice's `lfo_rate_hz`) differ from those of the single direct call. -/
theorem chorusSetParameter_num_voices_history_dependent :
    chorusSetParameter sampleRng (chorusInit sampleRng) "num_voices" 3
        = chorusInit sampleRng ∧
    (([5, 3] : List ℚ).foldl (fun s v => chorusSetParameter sampleRng s "num_voices" v)
        (chorusInit sampleRng)).voices_data.headI.lfo_rate_hz
      = 2/10 * (1 + sampleRng 25) ∧
    (chorusSetParameter sampleRng (chorusInit sampleRng) "num_voices" 3).voices_data.headI.lfo_rate_hz
      = 2/10 * (1 + sampleRng 1) ∧
    (2/10 : ℚ) * (1 + sampleRng 25) ≠ (2/10) * (1 + sampleRng 1) := by
  have hget3 : (chorusInit sampleRng).params.get "num_voices" = 3 := by
    rw [chorusInit_eval]
    rfl
  have hsingle : chorusSetParameter sampleRng (chorusInit sampleRng) "num_voices" 3
      = chorusInit sampleRng :=
    chorusSetParameter_unchangedValue _ _ _ _ (by decide) hget3
  have hget5 : (chorusInit sampleRng).params.get "num_voices" ≠ 5 := by
    rw [hget3]
    norm_num
  have hstep1 : chorusSetParameter sampleRng (chorusInit sampleRng) "num_voices" 5
      = { enabled := true
          bypass := false
          sample_rate := 44100
          channels := 2
          params :=
            { rate_hz := 2 / 10, depth_s := 3 / 1000, mix := 5 / 10,
              num_voices := 5, stereo_spread := 7 / 10 }
          voices_data := (List.range 5).map (chorusVoiceAt sampleRng (2 / 10) 1102 2 9)
          write_idx := 0
          rngUsed := 24 } := by
    rw [chorusSetParameter_changedValue _ _ _ _ (by decide) hget5,
      chorusOnParameterChange_numVoices, chorusInit_eval,
      chorusReset_eq_of sampleRng _ 5 1102 floorToNat_five bufferLen_44100
        (by decide) (by decide)]
    rfl
  have hstep2 : ([5, 3] : List ℚ).foldl
        (fun s v => chorusSetParameter sampleRng s "num_voices" v) (chorusInit sampleRng)
      = { enabled := true
          bypass := false
          sample_rate := 44100
          channels := 2
          params :=
            { rate_hz := 2 / 10, depth_s := 3 / 1000, mix := 5 / 10,
              num_voices := 3, stereo_spread := 7 / 10 }
          voices_data := (List.range 3).map (chorusVoiceAt sampleRng (2 / 10) 1102 2 24)
          write_idx := 0
          rngUsed := 33 } := by
    rw [List.foldl_cons, List.foldl_cons, List.foldl_nil, hstep1,
      chorusSetParameter_changedValue _ _ _ _ (by decide) (by simp [ChorusParams.get]),
      chorusOnParameterChange_numVoices,
      chorusReset_eq_of sampleRng _ 3 1102 floorToNat_three bufferLen_44100
        (by decide) (by decide)]
    rfl
  refine ⟨hsingle, ?_, ?_, ?_⟩
  · rw [hstep2]
    show (chorusVoiceAt sampleRng (2/10) 1102 2 24 0).lfo_rate_hz = 2/10 * (1 + sampleRng 25)
    unfold chorusVoiceAt
    norm_num
  · rw [hsingle, chorusInit_eval]
    show (chorusVoiceAt sampleRng (2/10) 1102 2 0 0).lfo_rate_hz = 2/10 * (1 + sampleRng 1)
    unfold chorusVoiceAt
    norm_num
  · unfold sampleRng
    norm_num

/-- C6 (amended): parameter setting is history-independent for `GainEffect`,
whose derived-state recompute is deterministic: any sequence of
`set_parameter("gain_db", ·)` calls ending with value `X`, applied to a
consistent effect with no intervening `process_block`, leaves the recomputed
internal coefficient `gain_linear` equal to that of a single
`set_parameter("gain_db", X)` on a freshly constructed `GainEffect` — no
accumulation artifacts. (For `Chorus` this fails: `num_voices` sequences
re-randomize `voices_data` on each triggered reset, and a value equal to the
stored one triggers no recompute at all.) -/
theorem gainEffect_setParameter_history_independent (e : GainEffect)
    (vs : List ℚ) (X : ℚ) (hc : e.consistent) (hlast : vs.getLast? = some X) :
    (vs.foldl (fun s v => s.setParameter "gain_db" v) e).gain_linear
      = (GainEffect.init.setParameter "gain_db" X).gain_linear := by
  have h1 := GainEffect.foldl_setParameter_consistent vs e hc
  rw [GainEffect.consistent, GainEffect.foldl_setParameter_gain_db vs e X hlast] at h1
  have h2 := GainEffect.init.setParameter_consistent "gain_db" X rfl
  rw [GainEffect.consistent, GainEffect.init.setParameter_gain_db X] at h2
  rw [h1, h2]

/-- Witness for C6: the rapid sequence 1, -6, 12, 3 of `gain_db` values on a
fresh effect ends with the same linear gain as setting 3 alone. -/
theorem gainEffect_setParameter_history_independent_witness :
    GainEffect.consistent GainEffect.init ∧
    ([1, -6, 12, 3] : List ℚ).getLast? = some 3 ∧
    (([1, -6, 12, 3] : List ℚ).foldl
        (fun s v => s.setParameter "gain_db" v) GainEffect.init).gain_linear
      = (GainEffect.init.setParameter "gain_db" 3).gain_linear :=
  ⟨rfl, by decide,
    gainEffect_setParameter_history_independent GainEffect.init [1, -6, 12, 3] 3
      rfl (by decide)⟩

/-- C7: after `set_stream_properties(sr, ch)` returns, the stored stream
properties equal the arguments, and `reset()` together with the
parameter-change reaction `_on_parameter_change("_stream_props_changed",
None)` has been invoked exactly when either argument differed from the
previously stored value. -/
theorem setStreamProperties_spec (e : EffectBase) (sr : Int) (ch : Nat) :
    (setStreamProperties e sr ch).state.sample_rate = sr ∧
    (setStreamProperties e sr ch).state.channels = ch ∧
    ((e.sample_rate ≠ sr ∨ e.channels ≠ ch) →
      (setStreamProperties e sr ch).resetCalled = true ∧
      (setStreamProperties e sr ch).onParamChangeCalled = true) ∧
    ((e.sample_rate = sr ∧ e.channels = ch) →
      (setStreamProperties e sr ch).resetCalled = false ∧
      (setStreamProperties e sr ch).onParamChangeCalled = false) := by
  by_cases h1 : e.sample_rate = sr <;> by_cases h2 : e.channels = ch <;>
    simp [setStreamProperties, h1, h2]

/-- Witness for C7: changing the sample rate from 44100 to 48000 stores the
new properties and triggers the reset path; re-setting identical properties
does not. -/
theorem setStreamProperties_spec_witness :
    (setStreamProperties
        { enabled := true, bypass := false, sample_rate := 44100, channels := 2 }
        48000 2).state.sample_rate = 48000 ∧
    (setStreamProperties
        { enabled := true, bypass := false, sample_rate := 44100, channels := 2 }
        48000 2).state.channels = 2 ∧
    (setStreamProperties
        { enabled := true, bypass := false, sample_rate := 44100, channels := 2 }
        48000 2).resetCalled = true ∧
    (setStreamProperties
        { enabled := true, bypass := false, sample_rate := 44100, channels := 2 }
        48000 2).onParamChangeCalled = true := by
  have h := setStreamProperties_spec
    { enabled := true, bypass := false, sample_rate := 44100, channels := 2 } 48000 2
  exact ⟨h.1, h.2.1, (h.2.2.1 (Or.inl (by decide))).1, (h.2.2.1 (Or.inl (by decide))).2⟩

/-- Counterexample for C8: with the audio engine and every component
available, the action name `load` — a member of the spec's claimed action
set — is reported as a failure with an "Unknown playback action" error, while
`add_to_queue_path`, outside the claimed set, dispatches and reports
success. -/
theorem requestPlaybackAction_spec_action_set_false :
    requestPlaybackAction fullHostState "load"
        = (false, some "Unknown playback action: load") ∧
    "load" ∈ specClaimedPlaybackActions ∧
    requestPlaybackAction fullHostState "add_to_queue_path" = (true, none) ∧
    "add_to_queue_path" ∉ specClaimedPlaybackActions := by
  refine ⟨by decide, by decide, by decide, by decide⟩

/-- C8 (amended): when the audio engine and the components the dispatch
needs are available, `request_playback_action` accepts exactly the action
set \x7bload_track_from_path, load_and_play_path, play_track_by_id,
play_track_at_playlist_index, play, pause, resume, stop, next, previous,
set_volume, seek, toggle_mute, add_to_queue_path, load_playlist_paths,
set_shuffle_mode, set_repeat_mode, force_sync_playback\x7d: each action in
the set dispatches and reports success with no error, and every action name
outside it reports a failure with the error message
"Unknown playback action: " followed by the action name, delivered to the
caller's callback rather than raised. -/
theorem requestPlaybackAction_recognised_action_set (action : String) :
    (action ∈ recognisedPlaybackActions →
      requestPlaybackAction fullHostState action = (true, none)) ∧
    (action ∉ recognisedPlaybackActions →
      requestPlaybackAction fullHostState action
        = (false, some ("Unknown playback action: " ++ action))) := by
  constructor
  · intro h
    simp only [recognisedPlaybackActions, List.mem_cons, List.not_mem_nil,
      or_false] at h
    rcases h with h | h | h | h | h | h | h | h | h | h | h | h | h | h | h | h | h | h <;>
      subst h <;> rfl
  · intro h
    simp only [recognisedPlaybackActions, List.mem_cons, List.not_mem_nil,
      or_false, not_or] at h
    obtain ⟨h1, h2, h3, h4, h5, h6, h7, h8, h9, h10, h11, h12, h13, h14, h15,
      h16, h17, h18⟩ := h
    simp [requestPlaybackAction, fullHostState, h1, h2, h3, h4, h5, h6, h7, h8,
      h9, h10, h11, h12, h13, h14, h15, h16, h17, h18]

/-- Witness for C8 (amended): `pause` is in the recognised set and succeeds;
`load` is outside it and reports the unknown-action failure. -/
theorem requestPlaybackAction_recognised_action_set_witness :
    ("pause" ∈ recognisedPlaybackActions ∧
      requestPlaybackAction fullHostState "pause" = (true, none)) ∧
    ("load" ∉ recognisedPlaybackActions ∧
      requestPlaybackAction fullHostState "load"
        = (false, some ("Unknown playback action: " ++ "load"))) :=
  ⟨⟨by decide, (requestPlaybackAction_recognised_action_set "pause").1 (by decide)⟩,
   ⟨by decide, (requestPlaybackAction_recognised_action_set "load").2 (by decide)⟩⟩

/-- C9: from any engine state, after `set_volume(0.0)`, `toggle_mute()`,
`toggle_mute()` the effective output volume the realtime callback applies
(the volume when not muted, 0 when muted) equals 0, not a pre-mute non-zero
volume. -/
theorem setVolume_zero_mute_unmute_effective_zero (e : EngineVolumeState) :
    effectiveVolume (toggleMute (toggleMute (setVolume e 0))).volume
        (toggleMute (toggleMute (setVolume e 0))).is_muted = 0 := by
  cases h : e.is_muted <;>
    simp [setVolume, toggleMute, effectiveVolume, h]

/-- C10: `get_audio_properties` is total (the embedding is a total function,
so no invocation raises) and returns the registered engine's
`(sample_rate, channels)` as an integer pair exactly when an engine exposing
both attributes is registered, and the fixed default `(44100, 2)` when no
engine is registered or the registered one lacks either attribute. -/
theorem getAudioProperties_spec :
    (∀ sr ch : Int,
      getAudioProperties (some { sample_rate := some sr, channels := some ch })
        = (sr, ch)) ∧
    getAudioProperties none = (44100, 2) ∧
    (∀ ch : Option Int,
      getAudioProperties (some { sample_rate := none, channels := ch })
        = (44100, 2)) ∧
    (∀ sr : Int,
      getAudioProperties (some { sample_rate := some sr, channels := none })
        = (44100, 2)) := by
  refine ⟨fun sr ch => rfl, rfl, fun ch => ?_, fun sr => rfl⟩
  cases ch <;> rfl

end FlowState
